import Mathlib

/-!
# runtime/cgo/callbacks.go (Go 1.18.2)

A shallow embedding of the Go file `runtime/cgo/callbacks.go`: the linker
directives it carries, the package-level hook variables it declares, and the
one function it defines, `_cgo_panic`.

`_cgo_panic` is exported to native code and receives a raw address from C.
A struct pointer is therefore nil or some non-nil address, and memory may or
may not hold a readable argument record at that address.  Byte pointers are a
block together with an offset into it; a block is either the storage of one of
the imported native symbols or some native allocation (for instance a C string
buffer).

The function calls `_runtime_cgo_panic_internal`, which has no body in this
file.  The body of `_cgo_panic` is written as a tree of effects in which a call
of that function is a node; one interpreter runs such a tree against a given
callee, and both the record of the calls made and the outcome of the run come
from that interpreter applying the callee.
-/

namespace Cgo

/-! ## Data model -/

/-- A byte of memory. -/
abbrev Byte := Fin 256

/-- A Go string: an immutable sequence of bytes. -/
abbrev GoString := List Byte

/-- The five native symbols the file imports with `cgo_import_static` and
declares as one-byte Go variables (`var x_cgo_init byte`, ...). -/
inductive NativeSym where
  | x_cgo_init
  | x_cgo_thread_start
  | x_cgo_sys_thread_create
  | x_cgo_notify_runtime_init_done
  | x_cgo_set_context_function
  deriving DecidableEq, Repr

/-- A region of byte memory: the storage of an imported native symbol, or a
native allocation identified by a number. -/
inductive Block where
  | sym (s : NativeSym)
  | native (id : Nat)
  deriving DecidableEq, Repr

/-- A value of Go type `*byte` (also used for `unsafe.Pointer`): nil, or an
offset into a block. -/
inductive BytePtr where
  | nil
  | addr (b : Block) (off : Nat)
  deriving DecidableEq, Repr

/-- The address-of operator applied to one of the imported symbols' variables,
`&x_cgo_init` and the like: the start of that symbol's storage. -/
def addrOf (s : NativeSym) : BytePtr := BytePtr.addr (Block.sym s) 0

/-- The Go type `struct{ cstr *byte }`, the argument record of `_cgo_panic`. -/
structure ArgStruct where
  cstr : BytePtr
  deriving DecidableEq, Repr

/-- A value of Go type `*struct{ cstr *byte }` as native code passes it: nil,
or a non-nil address, identified by `loc`.  Whether an argument record can be
read at that address is a matter of the memory, not of the pointer. -/
inductive ArgPtr where
  | nil
  | ref (loc : Nat)
  deriving DecidableEq, Repr

/-- The six package-level pointer variables of the file. -/
structure Globals where
  _cgo_init : BytePtr
  _cgo_thread_start : BytePtr
  _cgo_sys_thread_create : BytePtr
  _cgo_notify_runtime_init_done : BytePtr
  _cgo_set_context_function : BytePtr
  _cgo_yield : BytePtr
  deriving DecidableEq, Repr

/-- The machine state the file's code can observe: the package variables, the
argument records readable in memory (none at an address that is unmapped or
dangling), and byte memory by block. -/
structure State where
  globals : Globals
  structs : Nat → Option ArgStruct
  bytes : Block → List Byte

/-- How an execution ends: a memory fault, a Go panic carrying a string value,
or a normal return in some final state. -/
inductive Outcome where
  | fault
  | panic (v : GoString)
  | returned (st : State)

/-- One invocation of `_runtime_cgo_panic_internal`: the pointer passed and the
machine state at the moment of the call. -/
structure Call where
  arg : BytePtr
  st : State

/-- What one execution of `_cgo_panic` does: the invocations of
`_runtime_cgo_panic_internal` it makes, in order, and how it ends. -/
structure Run where
  calls : List Call
  result : Outcome

/-- The behaviour of a function body that may call `_runtime_cgo_panic_internal`:
it faults, or it returns in a state, or it calls that function in a state with
a pointer and goes on, should the call return, from the state the call left. -/
inductive Prog where
  | fault
  | ret (st : State)
  | call (st : State) (p : BytePtr) (k : State → Prog)

/-- Running a body against a callee.  At a call node the callee is applied to
the node's state and pointer and that application is recorded; a fault or a
panic of the callee ends the run, a return continues the body. -/
def exec (callee : State → BytePtr → Outcome) : Prog → Run
  | Prog.fault => ⟨[], Outcome.fault⟩
  | Prog.ret st => ⟨[], Outcome.returned st⟩
  | Prog.call st p k =>
    match callee st p with
    | Outcome.fault => ⟨[⟨p, st⟩], Outcome.fault⟩
    | Outcome.panic v => ⟨[⟨p, st⟩], Outcome.panic v⟩
    | Outcome.returned st2 =>
      ⟨⟨p, st⟩ :: (exec callee (k st2)).calls, (exec callee (k st2)).result⟩

/-! ## Package variables -/

/-- The state of the package variables before any initialiser has run: every
pointer variable holds Go's zero value, nil. -/
def zeroGlobals : Globals :=
  ⟨BytePtr.nil, BytePtr.nil, BytePtr.nil, BytePtr.nil, BytePtr.nil, BytePtr.nil⟩

/-- Package initialisation, the five initialised declarations of the file:
`var _cgo_init = &x_cgo_init` and its four siblings.  `_cgo_yield` is declared
without an initialiser and is not touched. -/
def pkgInit (g : Globals) : Globals :=
  ⟨addrOf NativeSym.x_cgo_init,
   addrOf NativeSym.x_cgo_thread_start,
   addrOf NativeSym.x_cgo_sys_thread_create,
   addrOf NativeSym.x_cgo_notify_runtime_init_done,
   addrOf NativeSym.x_cgo_set_context_function,
   g._cgo_yield⟩

/-! ## `_cgo_panic` -/

/-- The field read `a.cstr` through a struct pointer: a nil pointer faults, an
address with no readable record faults, and any other pointer yields the field
of the record at that address. -/
def loadCstr (st : State) : ArgPtr → Option BytePtr
  | ArgPtr.nil => none
  | ArgPtr.ref loc => (st.structs loc).map ArgStruct.cstr

/-- The body of `_cgo_panic`:
`func _cgo_panic(a *struct{ cstr *byte }) { _runtime_cgo_panic_internal(a.cstr) }`.
It reads `a.cstr`, calls `_runtime_cgo_panic_internal` with the pointer read, in
the state it was entered in, and returns if that call returns. -/
def _cgo_panic_body (st : State) (a : ArgPtr) : Prog :=
  match loadCstr st a with
  | none => Prog.fault
  | some p => Prog.call st p (fun st2 => Prog.ret st2)

/-- The function `_cgo_panic` run against a callee.  The callee
`_runtime_cgo_panic_internal` is declared without a body and linked by name
from package runtime; it is the parameter `callee` here, which receives the
state and the pointer and decides the outcome. -/
def _cgo_panic (callee : State → BytePtr → Outcome) (st : State) (a : ArgPtr) : Run :=
  exec callee (_cgo_panic_body st a)

/-- The argument `a` points to a readable argument record: it is a non-nil
address and memory holds a record there. -/
def Readable (st : State) (a : ArgPtr) : Prop :=
  ∃ loc r, a = ArgPtr.ref loc ∧ st.structs loc = some r

/-! ## The callee, from package runtime -/

/-- Modelled from the spec: the conversion of a C string to a Go string, which
lives in package runtime and not in this file.  The bytes are taken up to, and
without, the first NUL; memory that ends before a NUL is met gives no string. -/
def cstring : List Byte → Option GoString
  | [] => none
  | b :: bs => if b = 0 then some [] else (cstring bs).map (fun s => b :: s)

/-- Modelled from the spec: reading the C string a byte pointer points to
("the argument is converted into a Go string").  The spec gives no string for
a nil pointer; the read is a fault here. -/
def gostring (st : State) : BytePtr → Option GoString
  | BytePtr.nil => none
  | BytePtr.addr b off => cstring ((st.bytes b).drop off)

/-- Modelled from the spec: `runtime._cgo_panic_internal`, which this file
declares without a body and links by name.  It is "a single forwarding call
that converts a native-supplied string pointer into a managed panic": the
pointer is converted into a Go string and the function panics with it. -/
def _runtime_cgo_panic_internal (st : State) (p : BytePtr) : Outcome :=
  match gostring st p with
  | none => Outcome.fault
  | some v => Outcome.panic v

/-- The argument `a` points to a record whose pointer field points to the
NUL-terminated byte sequence `s`: memory from that address on reads `s`, then a
NUL, and `s` itself holds no NUL. -/
def PointsToString (st : State) (a : ArgPtr) (s : List Byte) : Prop :=
  ∃ loc r b off rest, a = ArgPtr.ref loc ∧ st.structs loc = some r ∧
    r.cstr = BytePtr.addr b off ∧
    (st.bytes b).drop off = s ++ 0 :: rest ∧ ∀ x ∈ s, x ≠ 0

/-! ## Linker directives -/

/-- The four kinds of `//go:` directive the file uses, each with the names it
is written with. -/
inductive Directive where
  | linkname (localname target : String)
  | cgo_export_static (name : String)
  | cgo_export_dynamic (name : String)
  | cgo_import_static (name : String)
  deriving DecidableEq, Repr

/-- Every `//go:` directive of the file, in file order. -/
def directives : List Directive :=
  [ Directive.cgo_export_static "crosscall2",
    Directive.cgo_export_dynamic "crosscall2",
    Directive.linkname "_runtime_cgo_panic_internal" "runtime._cgo_panic_internal",
    Directive.linkname "_cgo_panic" "_cgo_panic",
    Directive.cgo_export_static "_cgo_panic",
    Directive.cgo_export_dynamic "_cgo_panic",
    Directive.cgo_import_static "x_cgo_init",
    Directive.linkname "x_cgo_init" "x_cgo_init",
    Directive.linkname "_cgo_init" "_cgo_init",
    Directive.cgo_import_static "x_cgo_thread_start",
    Directive.linkname "x_cgo_thread_start" "x_cgo_thread_start",
    Directive.linkname "_cgo_thread_start" "_cgo_thread_start",
    Directive.cgo_import_static "x_cgo_sys_thread_create",
    Directive.linkname "x_cgo_sys_thread_create" "x_cgo_sys_thread_create",
    Directive.linkname "_cgo_sys_thread_create" "_cgo_sys_thread_create",
    Directive.cgo_import_static "x_cgo_notify_runtime_init_done",
    Directive.linkname "x_cgo_notify_runtime_init_done" "x_cgo_notify_runtime_init_done",
    Directive.linkname "_cgo_notify_runtime_init_done" "_cgo_notify_runtime_init_done",
    Directive.cgo_import_static "x_cgo_set_context_function",
    Directive.linkname "x_cgo_set_context_function" "x_cgo_set_context_function",
    Directive.linkname "_cgo_set_context_function" "_cgo_set_context_function",
    Directive.cgo_import_static "_cgo_yield",
    Directive.linkname "_cgo_yield" "_cgo_yield",
    Directive.cgo_export_static "_cgo_topofstack",
    Directive.cgo_export_dynamic "_cgo_topofstack" ]

/-- The names exported for static linking, in file order. -/
def staticExports (ds : List Directive) : List String :=
  ds.filterMap fun d =>
    match d with
    | Directive.cgo_export_static n => some n
    | _ => none

/-- The names exported for dynamic linking, in file order. -/
def dynamicExports (ds : List Directive) : List String :=
  ds.filterMap fun d =>
    match d with
    | Directive.cgo_export_dynamic n => some n
    | _ => none

/-- The names imported from the native side, in file order. -/
def staticImports (ds : List Directive) : List String :=
  ds.filterMap fun d =>
    match d with
    | Directive.cgo_import_static n => some n
    | _ => none

/-- The name an imported native symbol is declared under. -/
def NativeSym.name : NativeSym → String
  | NativeSym.x_cgo_init => "x_cgo_init"
  | NativeSym.x_cgo_thread_start => "x_cgo_thread_start"
  | NativeSym.x_cgo_sys_thread_create => "x_cgo_sys_thread_create"
  | NativeSym.x_cgo_notify_runtime_init_done => "x_cgo_notify_runtime_init_done"
  | NativeSym.x_cgo_set_context_function => "x_cgo_set_context_function"

/-! ## Executions of the package's own code -/

/-- The two pieces of code the package has: the variable initialisers, and
`_cgo_panic` called with some argument. -/
inductive Action where
  | init
  | cgo_panic (a : ArgPtr)
  deriving DecidableEq, Repr

/-- The states the package's own code passes through while it performs one
action, in order.  Initialisation ends in the state with the five hooks set;
`_cgo_panic` is at its entry state and then at each call it makes. -/
def statesOf (callee : State → BytePtr → Outcome) (st : State) : Action → List State
  | Action.init => [⟨pkgInit st.globals, st.structs, st.bytes⟩]
  | Action.cgo_panic a => st :: (_cgo_panic callee st a).calls.map Call.st

/-- The state the package's code is in when an action is over: the last of the
states it passed through. -/
def after (callee : State → BytePtr → Outcome) (st : State) (act : Action) : State :=
  ((statesOf callee st act).getLast?).getD st

/-- Every state the package's code passes through while it performs a sequence
of actions from a starting state, the starting state included. -/
def trace (callee : State → BytePtr → Outcome) : State → List Action → List State
  | st, [] => [st]
  | st, act :: rest => st :: (statesOf callee st act ++ trace callee (after callee st act) rest)

/-- A small concrete state: hooks initialised, one argument record, at
location 0, pointing at the start of native block 0, no record readable at any
other location, and every block holding the bytes of "hi", a NUL and one byte
more. -/
def sampleState : State :=
  ⟨pkgInit zeroGlobals,
   fun loc => if loc = 0 then some ⟨BytePtr.addr (Block.native 0) 0⟩ else none,
   fun _ => [104, 105, 0, 33]⟩

/-- A hook slot value `p` holds the address of the native symbol `s` and of no
other: it is not nil, it is the address of `s`, and any symbol whose address
it is, is `s`. -/
def HoldsExactly (p : BytePtr) (s : NativeSym) : Prop :=
  p ≠ BytePtr.nil ∧ p = addrOf s ∧ ∀ t, p = addrOf t → t = s

/-! ## Helper lemmas -/

theorem cstring_append_nul (s rest : List Byte) (hs : ∀ x ∈ s, x ≠ 0) :
    cstring (s ++ 0 :: rest) = some s := by
  induction s with
  | nil => simp [cstring]
  | cons x xs ih =>
    have hx : x ≠ 0 := hs x (List.mem_cons_self _ _)
    have hxs : cstring (xs ++ 0 :: rest) = some xs :=
      ih (fun y hy => hs y (List.mem_cons_of_mem _ hy))
    simp [cstring, hx, hxs]

theorem cgo_panic_of_load_some (callee : State → BytePtr → Outcome) (st : State)
    (a : ArgPtr) (p : BytePtr) (h : loadCstr st a = some p) :
    _cgo_panic callee st a = ⟨[⟨p, st⟩], callee st p⟩ := by
  unfold _cgo_panic _cgo_panic_body
  rw [h]
  simp only [exec]
  cases hc : callee st p <;> simp [exec]

theorem cgo_panic_of_load_none (callee : State → BytePtr → Outcome) (st : State)
    (a : ArgPtr) (h : loadCstr st a = none) :
    _cgo_panic callee st a = ⟨[], Outcome.fault⟩ := by
  unfold _cgo_panic _cgo_panic_body
  rw [h]
  rfl

theorem loadCstr_none_iff (st : State) (a : ArgPtr) :
    loadCstr st a = none ↔ ¬ Readable st a := by
  cases a with
  | nil => simp [loadCstr, Readable]
  | ref loc =>
    cases h : st.structs loc with
    | none => simp [loadCstr, Readable, h]
    | some r => simp [loadCstr, Readable, h]

theorem loadCstr_of_pointsTo (st : State) (a : ArgPtr) (s : List Byte)
    (h : PointsToString st a s) :
    ∃ p, loadCstr st a = some p ∧ gostring st p = some s := by
  obtain ⟨loc, r, b, off, rest, ha, hr, hp, hmem, hs⟩ := h
  subst ha
  refine ⟨r.cstr, by simp [loadCstr, hr], ?_⟩
  rw [hp]
  simp only [gostring]
  rw [hmem]
  exact cstring_append_nul s rest hs

theorem internal_not_returned (st st2 : State) (p : BytePtr) :
    _runtime_cgo_panic_internal st p ≠ Outcome.returned st2 := by
  unfold _runtime_cgo_panic_internal
  cases gostring st p <;> simp

theorem sampleState_pointsTo : PointsToString sampleState (ArgPtr.ref 0) [104, 105] :=
  ⟨0, ⟨BytePtr.addr (Block.native 0) 0⟩, Block.native 0, 0, [33], rfl, rfl, rfl, rfl, by simp⟩

theorem sampleState_readable : Readable sampleState (ArgPtr.ref 0) :=
  ⟨0, ⟨BytePtr.addr (Block.native 0) 0⟩, rfl, rfl⟩

theorem sampleState_unreadable : ¬ Readable sampleState (ArgPtr.ref 7) :=
  (loadCstr_none_iff sampleState (ArgPtr.ref 7)).mp rfl

theorem call_mem_iff (callee : State → BytePtr → Outcome) (st : State) (a : ArgPtr)
    (c : Call) :
    c ∈ (_cgo_panic callee st a).calls ↔ loadCstr st a = some c.arg ∧ c.st = st := by
  cases h : loadCstr st a with
  | none => simp [cgo_panic_of_load_none callee st a h]
  | some p =>
    rw [cgo_panic_of_load_some callee st a p h]
    cases c with
    | mk arg cst => simp [eq_comm]

theorem calls_st_eq (callee : State → BytePtr → Outcome) (st : State) (a : ArgPtr)
    (c : Call) (hc : c ∈ (_cgo_panic callee st a).calls) : c.st = st :=
  ((call_mem_iff callee st a c).mp hc).2

theorem statesOf_yield (callee : State → BytePtr → Outcome) (st : State) (act : Action)
    (s : State) (hs : s ∈ statesOf callee st act) :
    s.globals._cgo_yield = st.globals._cgo_yield := by
  cases act with
  | init =>
    simp [statesOf] at hs
    rw [hs]
    rfl
  | cgo_panic a =>
    simp only [statesOf, List.mem_cons, List.mem_map] at hs
    rcases hs with h | ⟨c, hc, hcs⟩
    · rw [h]
    · rw [← hcs, calls_st_eq callee st a c hc]

theorem after_yield (callee : State → BytePtr → Outcome) (st : State) (act : Action) :
    (after callee st act).globals._cgo_yield = st.globals._cgo_yield := by
  unfold after
  cases h : (statesOf callee st act).getLast? with
  | none => rfl
  | some s => exact statesOf_yield callee st act s (List.mem_of_getLast?_eq_some h)

theorem trace_yield (callee : State → BytePtr → Outcome) (acts : List Action) :
    ∀ (st s : State), s ∈ trace callee st acts →
      s.globals._cgo_yield = st.globals._cgo_yield := by
  induction acts with
  | nil =>
    intro st s hs
    simp [trace] at hs
    rw [hs]
  | cons act rest ih =>
    intro st s hs
    simp only [trace, List.mem_cons, List.mem_append] at hs
    rcases hs with h | h | h
    · rw [h]
    · exact statesOf_yield callee st act s h
    · rw [ih _ s h, after_yield]

theorem holdsExactly_addrOf (s : NativeSym) : HoldsExactly (addrOf s) s := by
  refine ⟨by simp [addrOf], rfl, ?_⟩
  intro t ht
  simp only [addrOf, BytePtr.addr.injEq, Block.sym.injEq, and_true] at ht
  exact ht.symm

theorem name_imported (s : NativeSym) : s.name ∈ staticImports directives := by
  cases s <;> simp [NativeSym.name, staticImports, directives]

/-! ## The claims -/

/-- C1, as the code has it: for every argument `a` that points to a readable
argument record (so `a` is not nil), `_cgo_panic a` invokes
`_runtime_cgo_panic_internal` exactly once, the pointer it passes is the `cstr`
field of that record, unchanged, and the run ends as that invocation ends.
This holds whatever the callee does. -/
theorem cgo_panic_forwards_cstr_once (callee : State → BytePtr → Outcome) (st : State)
    (a : ArgPtr) (h : Readable st a) :
    a ≠ ArgPtr.nil ∧
    ∃ loc r, a = ArgPtr.ref loc ∧ st.structs loc = some r ∧
      (_cgo_panic callee st a).calls.map Call.arg = [r.cstr] ∧
      (_cgo_panic callee st a).result = callee st r.cstr := by
  obtain ⟨loc, r, ha, hr⟩ := h
  subst ha
  have hl : loadCstr st (ArgPtr.ref loc) = some r.cstr := by simp [loadCstr, hr]
  refine ⟨by simp, loc, r, rfl, hr, ?_, ?_⟩
  · rw [cgo_panic_of_load_some callee st _ _ hl]
    rfl
  · rw [cgo_panic_of_load_some callee st _ _ hl]

theorem cgo_panic_forwards_cstr_once_witness :
    Readable sampleState (ArgPtr.ref 0) ∧
    (ArgPtr.ref 0 ≠ ArgPtr.nil ∧
     ∃ loc r, ArgPtr.ref 0 = ArgPtr.ref loc ∧ sampleState.structs loc = some r ∧
      (_cgo_panic _runtime_cgo_panic_internal sampleState (ArgPtr.ref 0)).calls.map Call.arg
        = [r.cstr] ∧
      (_cgo_panic _runtime_cgo_panic_internal sampleState (ArgPtr.ref 0)).result
        = _runtime_cgo_panic_internal sampleState r.cstr) :=
  ⟨sampleState_readable,
   cgo_panic_forwards_cstr_once _runtime_cgo_panic_internal sampleState (ArgPtr.ref 0)
     sampleState_readable⟩

/-- C1 as stated fails: the address 7 is not nil, yet no record is readable
there in the sample state, and `_cgo_panic` makes no call at all and ends in a
fault. -/
theorem cgo_panic_dangling_makes_no_call :
    ArgPtr.ref 7 ≠ ArgPtr.nil ∧
    (_cgo_panic _runtime_cgo_panic_internal sampleState (ArgPtr.ref 7)).calls = [] ∧
    (_cgo_panic _runtime_cgo_panic_internal sampleState (ArgPtr.ref 7)).result
      = Outcome.fault :=
  ⟨by decide,
   by rw [cgo_panic_of_load_none _runtime_cgo_panic_internal sampleState (ArgPtr.ref 7) rfl],
   by rw [cgo_panic_of_load_none _runtime_cgo_panic_internal sampleState (ArgPtr.ref 7) rfl]⟩

/-- C2: with the callee as the spec describes it, a call of `_cgo_panic a`
whose argument record points to a NUL-terminated string ends in a panic and
never returns normally to its caller. -/
theorem cgo_panic_never_returns (st : State) (a : ArgPtr) (s : List Byte)
    (h : PointsToString st a s) :
    (∃ v, (_cgo_panic _runtime_cgo_panic_internal st a).result = Outcome.panic v) ∧
    ∀ st2, (_cgo_panic _runtime_cgo_panic_internal st a).result ≠ Outcome.returned st2 := by
  obtain ⟨p, hl, hg⟩ := loadCstr_of_pointsTo st a s h
  rw [cgo_panic_of_load_some _runtime_cgo_panic_internal st a p hl]
  constructor
  · exact ⟨s, by simp [_runtime_cgo_panic_internal, hg]⟩
  · intro st2
    exact internal_not_returned st st2 p

theorem cgo_panic_never_returns_witness :
    PointsToString sampleState (ArgPtr.ref 0) [104, 105] ∧
    ((∃ v, (_cgo_panic _runtime_cgo_panic_internal sampleState (ArgPtr.ref 0)).result
        = Outcome.panic v) ∧
     ∀ st2, (_cgo_panic _runtime_cgo_panic_internal sampleState (ArgPtr.ref 0)).result
        ≠ Outcome.returned st2) :=
  ⟨sampleState_pointsTo,
   cgo_panic_never_returns sampleState (ArgPtr.ref 0) [104, 105] sampleState_pointsTo⟩

/-- C3: with the callee as the spec describes it, when the argument record
points to a NUL-terminated byte sequence, `_cgo_panic` panics with the Go
string made of exactly the bytes before the first NUL. -/
theorem cgo_panic_panics_with_string (st : State) (a : ArgPtr) (s : List Byte)
    (h : PointsToString st a s) :
    (_cgo_panic _runtime_cgo_panic_internal st a).result = Outcome.panic s := by
  obtain ⟨p, hl, hg⟩ := loadCstr_of_pointsTo st a s h
  rw [cgo_panic_of_load_some _runtime_cgo_panic_internal st a p hl]
  simp [_runtime_cgo_panic_internal, hg]

theorem cgo_panic_panics_with_string_witness :
    PointsToString sampleState (ArgPtr.ref 0) [104, 105] ∧
    (_cgo_panic _runtime_cgo_panic_internal sampleState (ArgPtr.ref 0)).result
      = Outcome.panic [104, 105] :=
  ⟨sampleState_pointsTo,
   cgo_panic_panics_with_string sampleState (ArgPtr.ref 0) [104, 105] sampleState_pointsTo⟩

/-- C4: after package initialisation each of the five hook slots is non-nil and
holds the address of the imported native symbol of the matching name, and of no
other symbol; each of those symbols is imported by a directive of the file. -/
theorem hooks_hold_matching_symbol (g : Globals) :
    HoldsExactly (pkgInit g)._cgo_init NativeSym.x_cgo_init ∧
    HoldsExactly (pkgInit g)._cgo_thread_start NativeSym.x_cgo_thread_start ∧
    HoldsExactly (pkgInit g)._cgo_sys_thread_create NativeSym.x_cgo_sys_thread_create ∧
    HoldsExactly (pkgInit g)._cgo_notify_runtime_init_done
      NativeSym.x_cgo_notify_runtime_init_done ∧
    HoldsExactly (pkgInit g)._cgo_set_context_function
      NativeSym.x_cgo_set_context_function ∧
    ∀ s : NativeSym, s.name ∈ staticImports directives :=
  ⟨holdsExactly_addrOf _, holdsExactly_addrOf _, holdsExactly_addrOf _,
   holdsExactly_addrOf _, holdsExactly_addrOf _, name_imported⟩

/-- C5: `_cgo_yield` starts as nil (it has no initialiser) and no code of the
package assigns it: in every state the package's own code passes through, from
the zero-valued variables and over any sequence of initialisation and
`_cgo_panic` calls, `_cgo_yield` is nil. -/
theorem cgo_yield_stays_nil (callee : State → BytePtr → Outcome)
    (structs : Nat → Option ArgStruct) (bytes : Block → List Byte) (acts : List Action)
    (s : State) (hs : s ∈ trace callee ⟨zeroGlobals, structs, bytes⟩ acts) :
    s.globals._cgo_yield = BytePtr.nil := by
  rw [trace_yield callee acts _ s hs]
  rfl

theorem cgo_yield_stays_nil_witness :
    sampleState ∈ trace _runtime_cgo_panic_internal
        ⟨zeroGlobals, sampleState.structs, sampleState.bytes⟩
        [Action.init, Action.cgo_panic (ArgPtr.ref 0)] ∧
    sampleState.globals._cgo_yield = BytePtr.nil :=
  ⟨List.Mem.tail _ (List.Mem.head _),
   cgo_yield_stays_nil _runtime_cgo_panic_internal sampleState.structs sampleState.bytes
     [Action.init, Action.cgo_panic (ArgPtr.ref 0)] sampleState
     (List.Mem.tail _ (List.Mem.head _))⟩

/-- C6: the symbols the file exports are crosscall2, _cgo_panic and
_cgo_topofstack; each carries both a cgo_export_static and a
cgo_export_dynamic directive under the same name, and a name is exported in
one mode exactly when it is exported in the other. -/
theorem exports_in_both_modes :
    staticExports directives = ["crosscall2", "_cgo_panic", "_cgo_topofstack"] ∧
    dynamicExports directives = ["crosscall2", "_cgo_panic", "_cgo_topofstack"] ∧
    ∀ n, n ∈ staticExports directives ↔ n ∈ dynamicExports directives := by
  have h1 : staticExports directives = ["crosscall2", "_cgo_panic", "_cgo_topofstack"] := rfl
  have h2 : dynamicExports directives = ["crosscall2", "_cgo_panic", "_cgo_topofstack"] := rfl
  refine ⟨h1, h2, ?_⟩
  intro n
  rw [h1, h2]

/-- C7, as the code has it: called with a nil struct pointer, `_cgo_panic`
faults on the field read and never invokes `_runtime_cgo_panic_internal`, and
so it does for every pointer that does not point to a readable argument
record.  The field read faults exactly for those pointers.  A pointer that
points to a readable record is not nil, and for it the forwarding call is
made, once, with the field read, and decides how the run ends. -/
theorem unreadable_faults_before_forwarding (callee : State → BytePtr → Outcome)
    (st : State) (a : ArgPtr) :
    ((_cgo_panic callee st ArgPtr.nil).calls = [] ∧
      (_cgo_panic callee st ArgPtr.nil).result = Outcome.fault) ∧
    (loadCstr st a = none ↔ ¬ Readable st a) ∧
    (¬ Readable st a →
      (_cgo_panic callee st a).calls = [] ∧
      (_cgo_panic callee st a).result = Outcome.fault) ∧
    (Readable st a →
      a ≠ ArgPtr.nil ∧
      ∃ p, loadCstr st a = some p ∧
        (_cgo_panic callee st a).calls.map Call.arg = [p] ∧
        (_cgo_panic callee st a).result = callee st p) ∧
    ((_cgo_panic callee st a).calls.length = 1 ↔ Readable st a) := by
  have hnone : ¬ Readable st a → _cgo_panic callee st a = ⟨[], Outcome.fault⟩ :=
    fun h => cgo_panic_of_load_none callee st a ((loadCstr_none_iff st a).mpr h)
  have hsome : Readable st a →
      ∃ p, loadCstr st a = some p ∧ _cgo_panic callee st a = ⟨[⟨p, st⟩], callee st p⟩ := by
    intro h
    cases hl : loadCstr st a with
    | none => exact absurd h ((loadCstr_none_iff st a).mp hl)
    | some p => exact ⟨p, rfl, cgo_panic_of_load_some callee st a p hl⟩
  refine ⟨⟨rfl, rfl⟩, loadCstr_none_iff st a, ?_, ?_, ?_⟩
  · intro h
    rw [hnone h]
    exact ⟨rfl, rfl⟩
  · intro h
    obtain ⟨p, hl, hrun⟩ := hsome h
    refine ⟨?_, p, hl, ?_, ?_⟩
    · intro hnil
      subst hnil
      simp [loadCstr] at hl
    · rw [hrun]
      rfl
    · rw [hrun]
  · constructor
    · intro hlen
      by_contra h
      rw [hnone h] at hlen
      simp at hlen
    · intro h
      obtain ⟨p, _, hrun⟩ := hsome h
      rw [hrun]
      rfl

theorem unreadable_faults_before_forwarding_witness :
    (Readable sampleState (ArgPtr.ref 0) ∧
      (_cgo_panic _runtime_cgo_panic_internal sampleState (ArgPtr.ref 0)).calls.length = 1) ∧
    (¬ Readable sampleState (ArgPtr.ref 7) ∧
      (_cgo_panic _runtime_cgo_panic_internal sampleState (ArgPtr.ref 7)).calls = [] ∧
      (_cgo_panic _runtime_cgo_panic_internal sampleState (ArgPtr.ref 7)).result
        = Outcome.fault) :=
  ⟨⟨sampleState_readable,
    (unreadable_faults_before_forwarding _runtime_cgo_panic_internal sampleState
      (ArgPtr.ref 0)).2.2.2.2.mpr sampleState_readable⟩,
   ⟨sampleState_unreadable,
    (unreadable_faults_before_forwarding _runtime_cgo_panic_internal sampleState
      (ArgPtr.ref 7)).2.2.1 sampleState_unreadable⟩⟩

/-- C7 as stated fails: the address 3 is not nil, yet in the sample state the
field read through it faults and the forwarding call is never reached. -/
theorem nonnil_field_read_can_fault :
    ArgPtr.ref 3 ≠ ArgPtr.nil ∧
    loadCstr sampleState (ArgPtr.ref 3) = none ∧
    (_cgo_panic _runtime_cgo_panic_internal sampleState (ArgPtr.ref 3)).calls.length = 0 :=
  ⟨by decide, rfl,
   by rw [cgo_panic_of_load_none _runtime_cgo_panic_internal sampleState (ArgPtr.ref 3) rfl]
      rfl⟩

/-- C8: `_cgo_panic` writes nothing before it forwards: at every call of
`_runtime_cgo_panic_internal` it makes, the state the callee is applied to is
the state at entry, so the argument records, the pointer read from `a.cstr`,
byte memory and all six package-level slots have their entry values; and the
run ends as the callee, applied to that state and that pointer, ends. -/
theorem cgo_panic_writes_nothing (callee : State → BytePtr → Outcome) (st : State)
    (a : ArgPtr) (c : Call) (hc : c ∈ (_cgo_panic callee st a).calls) :
    c.st = st ∧
    c.st.structs = st.structs ∧
    c.st.bytes = st.bytes ∧
    loadCstr c.st a = loadCstr st a ∧
    some c.arg = loadCstr st a ∧
    c.st.globals._cgo_init = st.globals._cgo_init ∧
    c.st.globals._cgo_thread_start = st.globals._cgo_thread_start ∧
    c.st.globals._cgo_sys_thread_create = st.globals._cgo_sys_thread_create ∧
    c.st.globals._cgo_notify_runtime_init_done = st.globals._cgo_notify_runtime_init_done ∧
    c.st.globals._cgo_set_context_function = st.globals._cgo_set_context_function ∧
    c.st.globals._cgo_yield = st.globals._cgo_yield ∧
    (_cgo_panic callee st a).calls = [c] ∧
    (_cgo_panic callee st a).result = callee c.st c.arg := by
  obtain ⟨harg, hst⟩ := (call_mem_iff callee st a c).mp hc
  have hrun := cgo_panic_of_load_some callee st a c.arg harg
  have hc2 : (⟨c.arg, st⟩ : Call) = c := by
    cases c with
    | mk arg cst =>
      simp only at hst
      rw [hst]
  rw [hrun, hst, hc2]
  exact ⟨rfl, rfl, rfl, rfl, harg.symm, rfl, rfl, rfl, rfl, rfl, rfl, rfl, rfl⟩

theorem cgo_panic_writes_nothing_witness :
    (⟨BytePtr.addr (Block.native 0) 0, sampleState⟩ : Call) ∈
      (_cgo_panic _runtime_cgo_panic_internal sampleState (ArgPtr.ref 0)).calls ∧
    (⟨BytePtr.addr (Block.native 0) 0, sampleState⟩ : Call).st = sampleState ∧
    some (⟨BytePtr.addr (Block.native 0) 0, sampleState⟩ : Call).arg
      = loadCstr sampleState (ArgPtr.ref 0) ∧
    (_cgo_panic _runtime_cgo_panic_internal sampleState (ArgPtr.ref 0)).result
      = _runtime_cgo_panic_internal sampleState (BytePtr.addr (Block.native 0) 0) :=
  have hmem : (⟨BytePtr.addr (Block.native 0) 0, sampleState⟩ : Call) ∈
      (_cgo_panic _runtime_cgo_panic_internal sampleState (ArgPtr.ref 0)).calls :=
    (call_mem_iff _runtime_cgo_panic_internal sampleState (ArgPtr.ref 0) _).mpr ⟨rfl, rfl⟩
  ⟨hmem,
   (cgo_panic_writes_nothing _runtime_cgo_panic_internal sampleState (ArgPtr.ref 0)
     ⟨BytePtr.addr (Block.native 0) 0, sampleState⟩ hmem).1,
   (cgo_panic_writes_nothing _runtime_cgo_panic_internal sampleState (ArgPtr.ref 0)
     ⟨BytePtr.addr (Block.native 0) 0, sampleState⟩ hmem).2.2.2.2.1,
   (cgo_panic_writes_nothing _runtime_cgo_panic_internal sampleState (ArgPtr.ref 0)
     ⟨BytePtr.addr (Block.native 0) 0, sampleState⟩ hmem).2.2.2.2.2.2.2.2.2.2.2.2⟩

end Cgo
